import Mathlib

/-
Verification of the dot-spend bank-statement import pipeline
(deduplication, rule/statistical categorization, CSV/Excel import).

Modelling conventions:
- Python floats (monetary amounts) are modelled as exact rationals (ℚ).
- Parsed `datetime` values are modelled as minutes since an arbitrary epoch
  (an `Int`); Python's `timedelta.days` is floor division by 1440, which for
  a positive divisor coincides with `Int`'s `/` (Euclidean division).
- A string field that may fail to parse is modelled as an `Option`, with
  `none` for the raised-and-caught exception path.
-/

set_option autoImplicit false

namespace DotSpend

/-- Python's substring test `needle in hay` on strings. -/
def strIn (needle hay : String) : Bool :=
  decide (needle.toList <:+: hay.toList)

/-- Python's `str.upper()` (ASCII; the descriptions and rule patterns the
pipeline handles are bank-statement ASCII text). -/
def py_upper (s : String) : String :=
  String.mk (s.toList.map Char.toUpper)

/-! ## Deduplication (`deduplication.py`, `DuplicateDetector`) -/

/-- A stored record as read by `DuplicateDetector.is_duplicate`:
`exist.get('amount')`, `exist.get('note', '')` and the parse of
`exist.get('timestamp')` (`none` when `datetime.fromisoformat` raises). -/
structure StoredRecord where
  amount : ℚ
  note : String
  timestamp : Option Int
  deriving Repr, DecidableEq

/-- The candidate transaction's fields used by `is_duplicate`: `amount`,
`description`, and the parse of its `date` string (`none` when
`datetime.fromisoformat` raises, the early-return-False path). -/
structure CandidateTx where
  amount : ℚ
  description : String
  date : Option Int
  deriving Repr, DecidableEq

/-- Minutes per day; `timedelta.days` floors the difference by this. -/
def minutesPerDay : Int := 1440

/-- The date condition of `is_duplicate`:
`delta = abs((e_date - target_date).days); delta <= tolerance_days`.
`timedelta.days` floors toward negative infinity, i.e. Euclidean `/ 1440`. -/
def date_check (e_date target_date tolerance_days : Int) : Bool :=
  decide ((((e_date - target_date) / minutesPerDay).natAbs : Int) ≤ tolerance_days)

/-- The body of the `for exist in self.existing` loop of `is_duplicate`,
a chain of `continue` guards, i.e. the conjunction of: the amount check
(`continue` when `abs(e_amt - amt) > 0.01`), the bidirectional
case-insensitive containment check (`continue` when neither direction
holds), and the date check (`continue` when the timestamp does not parse
or the day delta exceeds the tolerance). -/
def matches_record (tx : CandidateTx) (target_date tolerance_days : Int)
    (e : StoredRecord) : Bool :=
  (!decide ((1 / 100 : ℚ) < |e.amount - tx.amount|)) &&
  (strIn (py_upper tx.description) (py_upper e.note) ||
   strIn (py_upper e.note) (py_upper tx.description)) &&
  (match e.timestamp with
   | none => false
   | some e_date => date_check e_date target_date tolerance_days)

/-- `DuplicateDetector.is_duplicate`: returns `false` when the candidate's
date does not parse, otherwise scans the stored records and returns `true`
at the first one passing all three checks. -/
def is_duplicate (existing : List StoredRecord) (tx : CandidateTx)
    (tolerance_days : Int) : Bool :=
  match tx.date with
  | none => false
  | some target_date => existing.any (matches_record tx target_date tolerance_days)

/-- Modelled from the spec (refinement comparison for the date condition):
"compared by absolute difference in whole days" — the absolute time
difference, floored to whole days, at most the tolerance. -/
def spec_abs_whole_days (e_date target_date tolerance_days : Int) : Bool :=
  decide ((|e_date - target_date| / minutesPerDay) ≤ tolerance_days)

theorem matches_record_iff (tx : CandidateTx) (target_date tolerance_days : Int)
    (e : StoredRecord) :
    matches_record tx target_date tolerance_days e = true ↔
      (|e.amount - tx.amount| ≤ 1 / 100 ∧
       (strIn (py_upper tx.description) (py_upper e.note) = true ∨
        strIn (py_upper e.note) (py_upper tx.description) = true) ∧
       ∃ e_date, e.timestamp = some e_date ∧
         (((e_date - target_date) / minutesPerDay).natAbs : Int) ≤ tolerance_days) := by
  simp only [matches_record, Bool.and_eq_true, Bool.or_eq_true, Bool.not_eq_true',
    decide_eq_false_iff_not, not_lt]
  cases hts : e.timestamp with
  | none => simp
  | some e_date => simp [date_check, and_assoc]

theorem strIn_empty_left (s : String) : strIn (py_upper ("")) s = true :=
  decide_eq_true List.nil_infix

/-- C1: `is_duplicate` returns true iff some stored record simultaneously
passes the amount-tolerance check (absolute difference at most 0.01), the
bidirectional case-insensitive containment check between the candidate's
description and the stored note, and the parse-and-date-window check; and
when every stored amount differs by more than 0.01 the result is false. -/
theorem is_duplicate_iff_exists (existing : List StoredRecord) (tx : CandidateTx)
    (tolerance_days target_date : Int) (h : tx.date = some target_date) :
    (is_duplicate existing tx tolerance_days = true ↔
      ∃ e ∈ existing,
        |e.amount - tx.amount| ≤ 1 / 100 ∧
        (strIn (py_upper tx.description) (py_upper e.note) = true ∨
         strIn (py_upper e.note) (py_upper tx.description) = true) ∧
        ∃ e_date, e.timestamp = some e_date ∧
          (((e_date - target_date) / minutesPerDay).natAbs : Int) ≤ tolerance_days) ∧
    ((∀ e ∈ existing, 1 / 100 < |e.amount - tx.amount|) →
      is_duplicate existing tx tolerance_days = false) := by
  constructor
  · simp only [is_duplicate, h, List.any_eq_true]
    constructor
    · rintro ⟨e, he, hm⟩
      exact ⟨e, he, (matches_record_iff tx target_date tolerance_days e).mp hm⟩
    · rintro ⟨e, he, hm⟩
      exact ⟨e, he, (matches_record_iff tx target_date tolerance_days e).mpr hm⟩
  · intro hall
    simp only [is_duplicate, h, List.any_eq_false]
    intro e he hm
    rcases (matches_record_iff tx target_date tolerance_days e).mp hm with ⟨ha, -, -⟩
    exact absurd ha (not_le.mpr (hall e he))

/-- Witness for C1: a stored record with equal amount, containing note and
equal date is reported as a duplicate. -/
theorem is_duplicate_iff_exists_witness :
    is_duplicate [⟨25 / 2, "UBER RIDE", some 1000⟩] ⟨25 / 2, "UBER", some 1000⟩ 1 = true :=
  (is_duplicate_iff_exists [⟨25 / 2, "UBER RIDE", some 1000⟩]
      ⟨25 / 2, "UBER", some 1000⟩ 1 1000 rfl).1.mpr
    ⟨⟨25 / 2, "UBER RIDE", some 1000⟩, by simp, by norm_num,
      Or.inl (by decide), 1000, rfl, by norm_num⟩

/-- C10: with an empty candidate description the containment check is
vacuous, so `is_duplicate` is true exactly when the candidate's date parses
and some stored record passes the amount and date-window checks alone. -/
theorem is_duplicate_empty_description (existing : List StoredRecord)
    (tx : CandidateTx) (tolerance_days : Int) (h : tx.description = "") :
    is_duplicate existing tx tolerance_days = true ↔
      ∃ target_date, tx.date = some target_date ∧
        ∃ e ∈ existing, |e.amount - tx.amount| ≤ 1 / 100 ∧
          ∃ e_date, e.timestamp = some e_date ∧
            (((e_date - target_date) / minutesPerDay).natAbs : Int) ≤ tolerance_days := by
  cases hd : tx.date with
  | none => simp [is_duplicate, hd]
  | some target_date =>
    simp only [is_duplicate, hd, List.any_eq_true]
    constructor
    · rintro ⟨e, he, hm⟩
      rcases (matches_record_iff tx target_date tolerance_days e).mp hm with ⟨ha, -, d, hdd, hle⟩
      exact ⟨target_date, rfl, e, he, ha, d, hdd, hle⟩
    · rintro ⟨t, ht, e, he, ha, d, hdd, hle⟩
      have hteq : t = target_date := (Option.some_inj.mp ht).symm
      subst hteq
      refine ⟨e, he, (matches_record_iff tx t tolerance_days e).mpr ⟨ha, ?_, d, hdd, hle⟩⟩
      left
      rw [h]
      exact strIn_empty_left _

/-- Witness for C10: empty description, matching amount and date. -/
theorem is_duplicate_empty_description_witness :
    is_duplicate [⟨10, "SOMETHING", some 500⟩] ⟨10, "", some 500⟩ 0 = true :=
  (is_duplicate_empty_description [⟨10, "SOMETHING", some 500⟩]
      ⟨10, "", some 500⟩ 0 rfl).mpr
    ⟨500, rfl, ⟨10, "SOMETHING", some 500⟩, by simp, by norm_num, 500, rfl, by norm_num⟩

/-- C3 counterexample: the code's date condition is not "absolute difference
in whole days ≤ tolerance" and is not symmetric at sub-day granularity.
With tolerance 1 day, a stored timestamp 2820 minutes (1 day 23 hours)
after the candidate matches, but one 2820 minutes before does not, because
`timedelta.days` floors toward negative infinity before `abs` is applied:
`(-2820) fdiv 1440 = -2`, so the day delta is counted as 2. -/
theorem date_window_not_symmetric_cex :
    spec_abs_whole_days (-2820) 0 1 = true ∧
    date_check (-2820) 0 1 = false ∧
    is_duplicate [⟨0, "A", some 2820⟩] ⟨0, "A", some 0⟩ 1 = true ∧
    is_duplicate [⟨0, "A", some (-2820)⟩] ⟨0, "A", some 0⟩ 1 = false := by
  refine ⟨by decide, by decide, ?_, ?_⟩
  · show ([(⟨0, "A", some 2820⟩ : StoredRecord)]).any (matches_record ⟨0, "A", some 0⟩ 0 1) = true
    rw [List.any_eq_true]
    exact ⟨⟨0, "A", some 2820⟩, by simp,
      (matches_record_iff ⟨0, "A", some 0⟩ 0 1 ⟨0, "A", some 2820⟩).mpr
        ⟨by norm_num, Or.inl (by decide), 2820, rfl, by decide⟩⟩
  · show ([(⟨0, "A", some (-2820)⟩ : StoredRecord)]).any (matches_record ⟨0, "A", some 0⟩ 0 1) = false
    rw [List.any_eq_false]
    intro e he hm
    simp only [List.mem_singleton] at he
    subst he
    rcases (matches_record_iff ⟨0, "A", some 0⟩ 0 1 ⟨0, "A", some (-2820)⟩).mp hm
      with ⟨-, -, d, hd, hle⟩
    cases Option.some_inj.mp hd
    simp only [minutesPerDay] at hle
    omega

/-- C3 amended: the date condition compares `abs(floor((stored − candidate)
in days))` with the tolerance, flooring toward negative infinity. Stored
records exactly `n` whole days earlier or later are treated alike (day
count `n`); with an extra sub-day remainder `d`, a later record still
counts `n` days while an earlier one counts `n + 1` days, so the window is
asymmetric at sub-day granularity. -/
theorem date_check_floor_characterization (t n d tolerance_days : Int)
    (hn : 0 ≤ n) (hd0 : 0 < d) (hd1 : d < minutesPerDay) :
    (date_check (t + n * minutesPerDay) t tolerance_days = decide (n ≤ tolerance_days) ∧
     date_check (t - n * minutesPerDay) t tolerance_days = decide (n ≤ tolerance_days)) ∧
    date_check (t + n * minutesPerDay + d) t tolerance_days = decide (n ≤ tolerance_days) ∧
    date_check (t - n * minutesPerDay - d) t tolerance_days = decide (n + 1 ≤ tolerance_days) := by
  refine ⟨⟨?_, ?_⟩, ?_, ?_⟩ <;>
    · simp only [date_check, minutesPerDay, decide_eq_decide] at *
      omega

/-- Witness for C3's amended statement at `t = 0`, `n = 1`, `d = 60`,
tolerance 1. -/
theorem date_check_floor_characterization_witness :
    (date_check (0 + 1 * minutesPerDay) 0 1 = decide ((1 : Int) ≤ 1) ∧
     date_check (0 - 1 * minutesPerDay) 0 1 = decide ((1 : Int) ≤ 1)) ∧
    date_check (0 + 1 * minutesPerDay + 60) 0 1 = decide ((1 : Int) ≤ 1) ∧
    date_check (0 - 1 * minutesPerDay - 60) 0 1 = decide ((1 : Int) + 1 ≤ 1) :=
  date_check_floor_characterization 0 1 60 1 (by decide) (by decide) (by decide)

/-! ## Rule categorization (`categorization.py`, `RuleCategorizer`) -/

/-- A categorization rule as read by `RuleCategorizer.categorize` via
`rule.get(...)`: absent keys give the Python defaults `""`, `False`,
`None`. -/
structure Rule where
  pattern : String := ""
  regex : Bool := false
  category : Option String := none
  min_amount : Option ℚ := none
  max_amount : Option ℚ := none
  deriving Repr, DecidableEq

/-- The default rule list hard-coded in `RuleCategorizer.__init__`. -/
def default_rules : List Rule :=
  [{ pattern := "UBER|LYFT", category := some ("Transport"), regex := true },
   { pattern := "SAFEWAY|TRADER JOE|WHOLE FOODS", category := some ("Groceries"), regex := true },
   { pattern := "NETFLIX|SPOTIFY|HBO|DISNEY", category := some ("Entertainment"), regex := true },
   { pattern := "AMAZON|EBAY", category := some ("Shopping"), regex := true },
   { pattern := "PG&E|EVERSOURCE|SCE", category := some ("Utilities"), regex := true },
   { pattern := "STARBUCKS|COFFEE|CAFE|PEET\x27S", category := some ("Dining"), regex := true },
   { pattern := "RESTAURANT|DINER|PIZZA|BURGER|SUSHI", category := some ("Dining"), regex := true }]

/-- The guard `if min_amt is not None and amount < min_amt: continue`. -/
def min_skip (amount : ℚ) (r : Rule) : Bool :=
  match r.min_amount with
  | some m => decide (amount < m)
  | none => false

/-- The guard `if max_amt is not None and amount > max_amt: continue`. -/
def max_skip (amount : ℚ) (r : Rule) : Bool :=
  match r.max_amount with
  | some m2 => decide (m2 < amount)
  | none => false

/-- The `for rule in self.rules` loop of `categorize`. The regex engine
(`re.search`, an external library call) is passed in as `research`, with
`none` standing for a raised `re.error` (malformed pattern); the loop has
no handler for it, so the error propagates out (`Except.error`). -/
def categorize_loop (research : String → String → Option Bool)
    (desc_upper : String) (amount : ℚ) : List Rule → Except Unit (Option String)
  | [] => .ok none
  | r :: rest =>
    if min_skip amount r then
      categorize_loop research desc_upper amount rest
    else if max_skip amount r then
      categorize_loop research desc_upper amount rest
    else if r.regex then
      match research (py_upper r.pattern) desc_upper with
      | none => .error ()
      | some true => .ok r.category
      | some false => categorize_loop research desc_upper amount rest
    else if strIn (py_upper r.pattern) desc_upper then .ok r.category
    else categorize_loop research desc_upper amount rest

/-- `RuleCategorizer.categorize(description, amount)`. -/
def categorize (research : String → String → Option Bool) (rules : List Rule)
    (description : String) (amount : ℚ) : Except Unit (Option String) :=
  categorize_loop research (py_upper description) amount rules

/-- Python re metacharacters other than `|`. -/
def regex_meta : List Char :=
  ['(', ')', '[', ']', '\x7b', '\x7d', '*', '+', '?', '.', '^', '$', '\\']

/-- Split a character list at every `|`. -/
def split_on_bar : List Char → List (List Char)
  | [] => [[]]
  | c :: rest =>
    let r := split_on_bar rest
    if c = '|' then [] :: r
    else
      match r with
      | [] => [[c]]
      | h :: t => (c :: h) :: t

/-- Modelled from the spec: Python's `re.search` (external `re` library),
restricted to the pattern shapes the program uses — alternations of
literal text (`A|B|C`), which match iff some alternative is a substring.
A pattern containing any other metacharacter is treated as a compile
error (`none`), as Python raises `re.error` on malformed patterns such as
an unbalanced `(`. -/
def re_search_model (pattern s : String) : Option Bool :=
  if pattern.toList.any (fun c => regex_meta.contains c) then none
  else some ((split_on_bar pattern.toList).any (fun alt => decide (alt <:+: s.toList)))

/-- The spec's description of a fully-matching rule: amount bounds (when
present) include the amount, and the pattern matches the upper-cased
description — regex search for regex rules, literal case-insensitive
substring containment otherwise. -/
def rule_applies (research : String → String → Option Bool)
    (desc_upper : String) (amount : ℚ) (r : Rule) : Bool :=
  (match r.min_amount with | some m => decide (m ≤ amount) | none => true) &&
  (match r.max_amount with | some m2 => decide (amount ≤ m2) | none => true) &&
  (if r.regex then research (py_upper r.pattern) desc_upper == some true
   else strIn (py_upper r.pattern) desc_upper)

theorem min_skip_eq_not (a : ℚ) (r : Rule) :
    min_skip a r = !(match r.min_amount with | some m => decide (m ≤ a) | none => true) := by
  rcases hm : r.min_amount with _ | m <;> simp [min_skip, hm, ← not_le]

theorem max_skip_eq_not (a : ℚ) (r : Rule) :
    max_skip a r = !(match r.max_amount with | some m2 => decide (a ≤ m2) | none => true) := by
  rcases hm : r.max_amount with _ | m2 <;> simp [max_skip, hm, ← not_le]

theorem categorize_loop_cons_false (research : String → String → Option Bool)
    (d : String) (a : ℚ) (r : Rule) (rest : List Rule)
    (hr : r.regex = true → (research (py_upper r.pattern) d).isSome = true)
    (hra : rule_applies research d a r = false) :
    categorize_loop research d a (r :: rest) = categorize_loop research d a rest := by
  simp only [categorize_loop]
  cases hskip1 : min_skip a r with
  | true => simp [hskip1]
  | false =>
    cases hskip2 : max_skip a r with
    | true => simp [hskip1, hskip2]
    | false =>
      have hA : (match r.min_amount with | some m => decide (m ≤ a) | none => true) = true := by
        have h1 := min_skip_eq_not a r
        rw [hskip1] at h1
        cases hAv : (match r.min_amount with | some m => decide (m ≤ a) | none => true) with
        | true => rfl
        | false =>
          rw [hAv] at h1
          simp at h1
      have hB : (match r.max_amount with | some m2 => decide (a ≤ m2) | none => true) = true := by
        have h2 := max_skip_eq_not a r
        rw [hskip2] at h2
        cases hBv : (match r.max_amount with | some m2 => decide (a ≤ m2) | none => true) with
        | true => rfl
        | false =>
          rw [hBv] at h2
          simp at h2
      rw [rule_applies, hA, hB] at hra
      simp only [Bool.true_and] at hra
      cases hregex : r.regex with
      | false =>
        rw [hregex] at hra
        simp at hra
        simp [hskip1, hskip2, hregex, hra]
      | true =>
        rcases hres : research (py_upper r.pattern) d with _ | b
        · exact absurd (hr hregex) (by simp [hres])
        · cases b with
          | false => simp [hskip1, hskip2, hregex, hres]
          | true =>
            rw [hregex] at hra
            simp [hres] at hra

theorem categorize_loop_cons_true (research : String → String → Option Bool)
    (d : String) (a : ℚ) (r : Rule) (rest : List Rule)
    (hra : rule_applies research d a r = true) :
    categorize_loop research d a (r :: rest) = .ok r.category := by
  simp only [rule_applies, Bool.and_eq_true] at hra
  obtain ⟨⟨hA, hB⟩, hC⟩ := hra
  have hskip1 : min_skip a r = false := by
    rw [min_skip_eq_not a r, hA]
    rfl
  have hskip2 : max_skip a r = false := by
    rw [max_skip_eq_not a r, hB]
    rfl
  simp only [categorize_loop, hskip1, hskip2, Bool.false_eq_true, if_false]
  cases hregex : r.regex with
  | false =>
    rw [hregex] at hC
    simp at hC
    simp [hregex, hC]
  | true =>
    rw [hregex] at hC
    simp at hC
    simp [hregex, hC]

/-- C2: `categorize` returns the category of the first rule, in stored
order, whose amount bounds (when present) include the amount and whose
pattern matches the description — regex search for regex rules, literal
case-insensitive containment otherwise — and `none` when no rule fully
matches; it never falls back to a default category. Hypothesis: every
regex rule's pattern compiles (the malformed-pattern path is claim C5). -/
theorem categorize_first_match (research : String → String → Option Bool)
    (rules : List Rule) (description : String) (amount : ℚ)
    (h : ∀ r ∈ rules, r.regex = true →
      (research (py_upper r.pattern) (py_upper description)).isSome = true) :
    categorize research rules description amount =
      .ok ((rules.find? (rule_applies research (py_upper description) amount)).bind
        Rule.category) := by
  unfold categorize
  induction rules with
  | nil => rfl
  | cons r rest ih =>
    have hr := h r (List.mem_cons_self r rest)
    have hrest : ∀ r' ∈ rest, r'.regex = true →
        (research (py_upper r'.pattern) (py_upper description)).isSome = true :=
      fun r' hm => h r' (List.mem_cons_of_mem r hm)
    cases hra : rule_applies research (py_upper description) amount r with
    | true =>
      rw [categorize_loop_cons_true research (py_upper description) amount r rest hra]
      simp [List.find?_cons, hra]
    | false =>
      rw [categorize_loop_cons_false research (py_upper description) amount r rest hr hra,
        ih hrest]
      simp [List.find?_cons, hra]

/-- Witness for C2: the default rule list categorizes "Uber ride home" as
Transport via the first rule, with the regex engine model. -/
theorem categorize_first_match_witness :
    categorize re_search_model default_rules ("Uber ride home") 0 = .ok (some ("Transport")) := by
  rw [categorize_first_match re_search_model default_rules ("Uber ride home") 0 (by decide)]
  rfl

/-- C5 evidence (code bug): a rule with the malformed pattern `(` makes
`categorize` propagate the regex-compile error instead of skipping the rule
and trying the later `UBER` rule (which would match). There is no
try/except around `re.search` in `RuleCategorizer.categorize`. -/
theorem categorize_malformed_regex_raises :
    categorize re_search_model
      [{ pattern := "(", regex := true, category := some ("X") },
       { pattern := "UBER", category := some ("Transport") }]
      ("UBER RIDE") 0 = .error () ∧
    categorize re_search_model [{ pattern := "UBER", category := some ("Transport") }]
      ("UBER RIDE") 0 = .ok (some ("Transport")) :=
  ⟨rfl, rfl⟩

/-! ## Statistical categorization (`categorization.py`, `MLCategorizer`) -/

/-- A stored transaction as read by `MLCategorizer.train` via `tx.get`:
`none` models both an absent key and a Python `None` value (which the code
treats identically through truthiness). -/
structure TxRecord where
  note : Option String := none
  description : Option String := none
  category : Option String := none
  deriving Repr, DecidableEq

/-- The usable labeled examples collected by `MLCategorizer.train`:
`desc = tx.get('note') or tx.get('description', '')`, kept only when both
`desc` and `cat` are truthy (non-empty, non-`None`). -/
def usable_pairs (transactions : List TxRecord) : List (String × String) :=
  transactions.filterMap fun tx =>
    let desc := match tx.note with
      | some s => if s = "" then tx.description.getD ("") else s
      | none => tx.description.getD ("")
    match tx.category with
    | some c => if desc ≠ "" ∧ c ≠ "" then some (desc, c) else none
    | none => none

/-- The state of an `MLCategorizer`: `self.model` (an opaque fitted
classifier, modelled as a prediction function) and `self.is_trained`. -/
structure MLState where
  model : Option (String → Option String) := none
  is_trained : Bool := false

/-- The state of a freshly constructed `MLCategorizer` (`__init__`). -/
def ml_init : MLState := {}

/-- `MLCategorizer.train`. `hasSklearn` models the `HAS_sklearn` import
guard; `fit` models `Pipeline.fit` (external sklearn call), returning
`none` when fitting raises. When fitting raises, the code keeps the
assigned (unfitted) pipeline object in `self.model` but leaves
`is_trained = False`; the unfitted model is unreachable through `predict`,
so its prediction behavior is modelled as constantly `none`. -/
def train (hasSklearn : Bool)
    (fit : List String → List String → Option (String → Option String))
    (transactions : List TxRecord) (st : MLState) : MLState :=
  if !hasSklearn then st
  else
    let pairs := usable_pairs transactions
    if pairs.length < 10 then st
    else
      match fit (pairs.map Prod.fst) (pairs.map Prod.snd) with
      | some m => { model := some m, is_trained := true }
      | none => { model := some (fun _ => none), is_trained := false }

/-- `MLCategorizer.predict`: `none` unless `is_trained` and a model is
present; a raising `model.predict` is already folded into the model
function returning `none`. -/
def predict (st : MLState) (description : String) : Option String :=
  if !st.is_trained then none
  else
    match st.model with
    | none => none
    | some m => m description

/-- C7: trained from the fresh state on fewer than 10 usable labeled
examples, the categorizer declines to train and predicts `none` for every
description; and prediction on an untrained categorizer is always `none`
(totality of `predict` models "never raises"). -/
theorem ml_train_few_examples (hasSklearn : Bool)
    (fit : List String → List String → Option (String → Option String))
    (transactions : List TxRecord)
    (h : (usable_pairs transactions).length < 10) :
    (∀ description, predict (train hasSklearn fit transactions ml_init) description = none) ∧
    (∀ description, predict ml_init description = none) := by
  constructor
  · intro description
    cases hasSklearn with
    | false => rfl
    | true =>
      simp only [train, Bool.not_true, Bool.false_eq_true, if_false, if_pos h]
      rfl
  · intro description
    rfl

/-- Witness for C7: nine usable labeled examples are not enough. -/
theorem ml_train_few_examples_witness :
    predict
      (train true (fun _ _ => some (fun _ => some ("Dining")))
        (List.replicate 9 ⟨some ("COFFEE SHOP"), none, some ("Dining")⟩) ml_init)
      ("COFFEE SHOP") = none ∧
    predict ml_init ("COFFEE SHOP") = none :=
  ⟨(ml_train_few_examples true (fun _ _ => some (fun _ => some ("Dining")))
      (List.replicate 9 ⟨some ("COFFEE SHOP"), none, some ("Dining")⟩) (by decide)).1
    ("COFFEE SHOP"),
   (ml_train_few_examples true (fun _ _ => some (fun _ => some ("Dining")))
      (List.replicate 9 ⟨some ("COFFEE SHOP"), none, some ("Dining")⟩) (by decide)).2
    ("COFFEE SHOP")⟩

/-! ## CSV import (`importers/csv_importer.py`, `CSVImporter`, with the
row/mapping logic shared by `importers/excel_importer.py`) -/

/-- The `Transaction` dataclass of `importers/base.py`. -/
structure Transaction where
  date : String
  amount : ℚ
  description : String
  category : Option String := none
  note : String := ""
  source : String := ""
  deriving Repr, DecidableEq

/-- One cell of the pandas data frame: a string or a numeric value. -/
inductive Cell where
  | str (s : String)
  | num (q : ℚ)
  deriving Repr, DecidableEq

/-- The data frame produced by `pd.read_csv` / `pd.read_excel`: column
names and rows of cells aligned with them. -/
structure Frame where
  columns : List String
  rows : List (List Cell)
  deriving Repr, DecidableEq

/-- Python `str(cell)`, applied to the date and description cells. No
claim observes the exact text of `str` on a numeric cell, so a canonical
rational rendering stands in for Python's float repr there. -/
def py_str : Cell → String
  | .str s => s
  | .num q => toString q

/-- `row[colName]`: pandas row indexing by column label; `none` models the
KeyError raised when the label is absent. -/
def cell_at (columns : List String) (row : List Cell) (colName : String) : Option Cell :=
  (columns.indexOf? colName).bind fun i => row[i]?

/-- Python's `str.lower()` (ASCII), used by `_auto_detect_columns`. -/
def py_lower (s : String) : String :=
  String.mk (s.toList.map Char.toLower)

/-- Decimal digit accumulator for the numeric parsing model. -/
def digits_val (cs : List Char) : Nat :=
  cs.foldl (fun a c => a * 10 + (c.toNat - 48)) 0

/-- Modelled from the spec: Python's `float(x)` on a string (external
runtime conversion), for the plain decimal shapes bank rows carry —
optional sign, integer digits, optional fractional digits. Any other
shape (for example `"N/A"` or an empty string) fails (`none`). -/
def parse_float (s : String) : Option ℚ :=
  let cs := s.toList
  let (sign, rest) : ℚ × List Char :=
    match cs with
    | '-' :: r => ((-1 : ℚ), r)
    | '+' :: r => ((1 : ℚ), r)
    | r => ((1 : ℚ), r)
  let intPart := rest.takeWhile Char.isDigit
  let rest2 := rest.dropWhile Char.isDigit
  match rest2 with
  | [] => if intPart.isEmpty then none else some (sign * (digits_val intPart : ℚ))
  | '.' :: frac =>
    if frac.all Char.isDigit ∧ (intPart ≠ [] ∨ frac ≠ []) then
      some (sign * ((digits_val intPart : ℚ) + (digits_val frac : ℚ) / 10 ^ frac.length))
    else none
  | _ => none

/-- `amount_val.replace('$', '').replace(',', '')`. -/
def strip_currency (s : String) : String :=
  String.mk (s.toList.filter fun c => !(c == '$' || c == ','))

/-- ISO date component, zero-padded to two digits. -/
def pad2 (n : Nat) : String :=
  if n < 10 then "0" ++ toString n else toString n

/-- ISO year, zero-padded to four digits. -/
def pad4 (n : Nat) : String :=
  if n < 10 then "000" ++ toString n
  else if n < 100 then "00" ++ toString n
  else if n < 1000 then "0" ++ toString n
  else toString n

/-- `datetime.isoformat()` of a midnight date. -/
def iso_render (y m d : Nat) : String :=
  pad4 y ++ "-" ++ pad2 m ++ "-" ++ pad2 d ++ "T" ++ "00:00:00"

/-- Recognize a canonical `YYYY-MM-DD` date string. -/
def parse_date_iso (s : String) : Option (Nat × Nat × Nat) :=
  match s.toList with
  | [y1, y2, y3, y4, c1, m1, m2, c2, d1, d2] =>
    if c1 = '-' ∧ c2 = '-' ∧ ([y1, y2, y3, y4, m1, m2, d1, d2].all Char.isDigit) then
      let y := digits_val [y1, y2, y3, y4]
      let m := digits_val [m1, m2]
      let d := digits_val [d1, d2]
      if 1 ≤ m ∧ m ≤ 12 ∧ 1 ≤ d ∧ d ≤ 31 then some (y, m, d) else none
    else none
  | _ => none

/-- Modelled from the spec: `BaseImporter.normalize_date`, which delegates
to the external `dateutil` parser and returns `dt.isoformat()`, raising
(here `none`) when the string cannot be parsed. Modelled for canonical
`YYYY-MM-DD` inputs; the `date_format` strptime path, which no claim
exercises, is not modelled. -/
def normalize_date (s : String) : Option String :=
  (parse_date_iso s).map fun ymd => iso_render ymd.1 ymd.2.1 ymd.2.2

/-- The sign policy inside the row loop:
`if invert_negative and amount < 0: amount = abs(amount)`; the
`invert_positive` branch is a no-op `pass`, and with no flag the amount
passes through unchanged. -/
def apply_invert (invert_negative : Bool) (amount : ℚ) : ℚ :=
  if invert_negative && decide (amount < 0) then |amount| else amount

/-- The amount conversion of the row loop: currency cleanup then `float`
for string cells, the value itself for numeric cells. -/
def convert_amount (cell : Cell) : Option ℚ :=
  match cell with
  | Cell.str s => parse_float (strip_currency s)
  | Cell.num q => some q

/-- The body of the per-row `try` block of `CSVImporter.parse` (and of the
identical loop in `ExcelImporter.parse`): fetch the three mapped cells,
convert the amount, apply the sign policy, normalize the date, and build
the `Transaction`. `none` models any caught row-level exception: a missing
mapping key (KeyError on `self.mapping[...]`), a missing column, a failed
`float`, or a failed date parse. -/
def row_to_tx (mapping : List (String × String)) (columns : List String)
    (invert_negative : Bool) (src : String) (row : List Cell) : Option Transaction :=
  (mapping.lookup ("date")).bind fun dateCol =>
  (cell_at columns row dateCol).bind fun dateCell =>
  (mapping.lookup ("amount")).bind fun amountCol =>
  (cell_at columns row amountCol).bind fun amountCell =>
  (mapping.lookup ("description")).bind fun descCol =>
  (cell_at columns row descCol).bind fun descCell =>
  (convert_amount amountCell).bind fun amount0 =>
  (normalize_date (py_str dateCell)).bind fun dateIso =>
  some { date := dateIso, amount := apply_invert invert_negative amount0,
         description := py_str descCell, source := src }

/-- The alias priority list for the `date` field in
`_auto_detect_columns`. -/
def date_aliases : List String :=
  ["date", "txn date", "transaction date", "posting date"]

/-- The alias priority list for the `amount` field. -/
def amount_aliases : List String :=
  ["amount", "amt", "value", "transaction amount"]

/-- The alias priority list for the `description` field. -/
def description_aliases : List String :=
  ["description", "desc", "payee", "merchant", "narrative", "transaction description"]

/-- One field of `_auto_detect_columns`:
`for candidate in aliases: if candidate in columns_lower:
mapping[field] = columns[columns_lower.index(candidate)]; break`. -/
def detect_column (aliases : List String) (columns : List String) : Option String :=
  let lower := columns.map py_lower
  aliases.findSome? fun cand => (lower.indexOf? cand).bind fun i => columns[i]?

/-- `CSVImporter._auto_detect_columns`: the mapping dict built in the fixed
order date, amount, description, each key present only when detected. -/
def _auto_detect_columns (columns : List String) : List (String × String) :=
  (match detect_column date_aliases columns with
   | some c => [(("date" : String), c)]
   | none => []) ++
  (match detect_column amount_aliases columns with
   | some c => [(("amount" : String), c)]
   | none => []) ++
  (match detect_column description_aliases columns with
   | some c => [(("description" : String), c)]
   | none => [])

/-- The mapping `parse` ends up using: `kwargs['mapping']`, when supplied,
overwrites `self.mapping` via `set_mapping`; the required-column loop runs
auto-detection exactly when the mapping is empty (its missing-field branch
is `pass` and changes nothing else). -/
def resolve_mapping (self_mapping : List (String × String))
    (kwargs_mapping : Option (List (String × String)))
    (columns : List String) : List (String × String) :=
  let m := match kwargs_mapping with
    | some km => km
    | none => self_mapping
  if m.isEmpty then _auto_detect_columns columns else m

/-- `CSVImporter.parse` after `pd.read_csv` has produced the frame (a
file-read failure raises `ValueError` before any logic modelled here).
The only error raised afterwards is `ValueError("Column mapping not
configured.")` when the resolved mapping is empty; every row is converted
inside a `try` whose failure drops the row (`filterMap`). -/
def parse (self_mapping : List (String × String))
    (kwargs_mapping : Option (List (String × String)))
    (invert_negative : Bool) (file_path : String) (df : Frame) :
    Except String (List Transaction) :=
  let mapping := resolve_mapping self_mapping kwargs_mapping df.columns
  if mapping.isEmpty then .error ("Column mapping not configured.")
  else .ok (df.rows.filterMap
    (row_to_tx mapping df.columns invert_negative ("csv:" ++ file_path)))

/-- C4 evidence (code bug): with columns `Date` and `Amount` only (no
description alias) and no caller mapping, auto-detection yields a partial
mapping, yet `parse` does not fail: the required-column validation loop of
`CSVImporter.parse` ends in `pass` (despite its own comment "If still
missing, we can't proceed"), the partial mapping is nonempty so the
"Column mapping not configured" error is not raised, and every row is then
dropped by the per-row `try` (KeyError on `self.mapping['description']`),
yielding a successful empty result where the spec requires a
MappingIncompleteError. -/
theorem parse_partial_mapping_no_error :
    resolve_mapping [] none ["Date", "Amount"] =
      [(("date" : String), ("Date" : String)), (("amount" : String), ("Amount" : String))] ∧
    parse [] none false ("stmt.csv")
      ⟨["Date", "Amount"], [[Cell.str ("2024-01-15"), Cell.str ("12.00")]]⟩ = .ok [] :=
  ⟨rfl, rfl⟩

/-- C6: parsing one delimited-text row `("2024-01-15", "-42.50",
"UBER RIDE")` with `invert_negative` yields exactly one Transaction with
amount `42.50` and description `"UBER RIDE"`; in general the sign policy
replaces a negative amount by its absolute value when `invert_negative`
is set and passes every amount through unchanged otherwise. -/
theorem parse_roundtrip_invert :
    parse [] none true ("stmt.csv")
      ⟨["Date", "Amount", "Description"],
       [[Cell.str ("2024-01-15"), Cell.str ("-42.50"), Cell.str ("UBER RIDE")]]⟩ =
      .ok [{ date := "2024-01-15T00:00:00", amount := 85 / 2,
             description := "UBER RIDE", source := "csv:stmt.csv" }] ∧
    (∀ q : ℚ, apply_invert true q = if q < 0 then -q else q) ∧
    (∀ q : ℚ, apply_invert false q = q) := by
  refine ⟨?_, ?_, ?_⟩
  · have hamt : parse_float (strip_currency ("-42.50")) = some (-(85 / 2 : ℚ)) := by
      rw [show parse_float (strip_currency ("-42.50")) =
          some ((-1 : ℚ) * ((digits_val ['4', '2'] : ℚ) + (digits_val ['5', '0'] : ℚ) / 10 ^ 2))
          from rfl,
        show digits_val ['4', '2'] = 42 from rfl, show digits_val ['5', '0'] = 50 from rfl]
      norm_num
    have h2 : row_to_tx
        [(("date" : String), ("Date" : String)), (("amount" : String), ("Amount" : String)),
         (("description" : String), ("Description" : String))]
        ["Date", "Amount", "Description"] true ("csv:" ++ "stmt.csv")
        [Cell.str ("2024-01-15"), Cell.str ("-42.50"), Cell.str ("UBER RIDE")] =
        (parse_float (strip_currency ("-42.50"))).bind fun amount0 =>
          (normalize_date ("2024-01-15")).bind fun dateIso =>
            some { date := dateIso, amount := apply_invert true amount0,
                   description := "UBER RIDE", source := "csv:" ++ "stmt.csv" } := rfl
    have hinv : apply_invert true (-(85 / 2 : ℚ)) = 85 / 2 := by
      simp only [apply_invert, Bool.true_and, decide_eq_true_eq]
      rw [if_pos (by norm_num : (-(85 / 2 : ℚ)) < 0)]
      norm_num
    rw [show parse [] none true ("stmt.csv")
        ⟨["Date", "Amount", "Description"],
         [[Cell.str ("2024-01-15"), Cell.str ("-42.50"), Cell.str ("UBER RIDE")]]⟩ =
        .ok ([[Cell.str ("2024-01-15"), Cell.str ("-42.50"), Cell.str ("UBER RIDE")]].filterMap
          (row_to_tx
            [(("date" : String), ("Date" : String)), (("amount" : String), ("Amount" : String)),
             (("description" : String), ("Description" : String))]
            ["Date", "Amount", "Description"] true ("csv:" ++ "stmt.csv"))) from rfl,
      List.filterMap_cons, h2, hamt]
    simp only [Option.some_bind,
      show normalize_date ("2024-01-15") = some ("2024-01-15T00:00:00") from rfl, hinv]
    rfl
  · intro q
    simp only [apply_invert, Bool.true_and, decide_eq_true_eq]
    by_cases hq : q < 0
    · rw [if_pos hq, if_pos hq, abs_of_neg hq]
    · rw [if_neg hq, if_neg hq]
  · intro q
    simp [apply_invert]

theorem indexOf_bind_getElem_isSome (columns : List String) (a : String)
    (h : a ∈ columns.map py_lower) :
    ∃ c, (((columns.map py_lower).indexOf? a).bind fun i => columns[i]?) = some c := by
  induction columns with
  | nil => simp at h
  | cons x xs ih =>
    by_cases hx : (py_lower x == a) = true
    · exact ⟨x, by rw [List.map_cons, List.indexOf?_cons, if_pos hx]; simp⟩
    · have h2 : a ∈ xs.map py_lower := by
        rw [List.map_cons] at h
        rcases List.mem_cons.mp h with h1 | h1
        · exact absurd (beq_iff_eq.mpr h1.symm) hx
        · exact h1
      obtain ⟨c, hc⟩ := ih h2
      refine ⟨c, ?_⟩
      rw [List.map_cons, List.indexOf?_cons, if_neg hx]
      cases hio : (xs.map py_lower).indexOf? a with
      | none =>
        rw [hio] at hc
        simp at hc
      | some i =>
        rw [hio] at hc
        simpa using hc

theorem detect_column_priority (aliases columns : List String) :
    detect_column aliases columns =
      (aliases.find? fun a => decide (a ∈ columns.map py_lower)).bind
        fun a => ((columns.map py_lower).indexOf? a).bind fun i => columns[i]? := by
  induction aliases with
  | nil => rfl
  | cons a as ih =>
    simp only [detect_column] at ih ⊢
    rw [List.findSome?_cons, List.find?_cons]
    by_cases hmem : a ∈ columns.map py_lower
    · obtain ⟨c, hc⟩ := indexOf_bind_getElem_isSome columns a hmem
      rw [hc]
      simp [hmem, hc]
    · have hnone : (columns.map py_lower).indexOf? a = none :=
        List.indexOf?_eq_none_iff.mpr fun x hx hbeq =>
          hmem (by rw [← beq_iff_eq.mp hbeq]; exact hx)
      rw [hnone]
      simp [hmem, ih]

/-- C8: column resolution is deterministic and priority-driven. A supplied
non-empty mapping (via kwargs or pre-set) is used verbatim with no
auto-detection; an empty mapping triggers auto-detection, whose result for
each canonical field is determined by the field's fixed alias list: the
earliest alias whose lowercased-name match exists wins (alias order, not
column order), and the chosen column is the first whose lowercased name
equals that alias. Determinism across invocations is purity of
`resolve_mapping`. -/
theorem resolve_mapping_deterministic :
    (∀ (m0 m : List (String × String)) (columns : List String), m ≠ [] →
        resolve_mapping m0 (some m) columns = m) ∧
    (∀ (m : List (String × String)) (columns : List String), m ≠ [] →
        resolve_mapping m none columns = m) ∧
    (∀ (m0 : List (String × String)) (columns : List String),
        resolve_mapping m0 (some []) columns = _auto_detect_columns columns) ∧
    (∀ columns : List String,
        resolve_mapping [] none columns = _auto_detect_columns columns) ∧
    (∀ columns : List String,
        (_auto_detect_columns columns).lookup ("date") = detect_column date_aliases columns ∧
        (_auto_detect_columns columns).lookup ("amount") = detect_column amount_aliases columns ∧
        (_auto_detect_columns columns).lookup ("description") =
          detect_column description_aliases columns) ∧
    (∀ aliases columns : List String,
        detect_column aliases columns =
          (aliases.find? fun a => decide (a ∈ columns.map py_lower)).bind
            fun a => ((columns.map py_lower).indexOf? a).bind fun i => columns[i]?) := by
  refine ⟨?_, ?_, fun m0 columns => rfl, fun columns => rfl, ?_, detect_column_priority⟩
  · intro m0 m columns hm
    cases m with
    | nil => exact absurd rfl hm
    | cons p l => rfl
  · intro m columns hm
    cases m with
    | nil => exact absurd rfl hm
    | cons p l => rfl
  · intro columns
    refine ⟨?_, ?_, ?_⟩ <;>
    · rcases h1 : detect_column date_aliases columns with _ | c1 <;>
        rcases h2 : detect_column amount_aliases columns with _ | c2 <;>
          rcases h3 : detect_column description_aliases columns with _ | c3 <;>
            simp [_auto_detect_columns, h1, h2, h3, List.lookup]

/-- Witness for C8: a supplied mapping is used verbatim; an empty one is
auto-detected with alias priority (`posting date` found for date even
though `Narrative` comes first in the file). -/
theorem resolve_mapping_deterministic_witness :
    resolve_mapping [(("x" : String), ("y" : String))]
      (some [(("date" : String), ("Datum" : String))]) ["Whatever"] = [("date", "Datum")] ∧
    resolve_mapping [(("date" : String), ("Datum" : String))] none ["Whatever"] =
      [("date", "Datum")] ∧
    resolve_mapping [] none ["Narrative", "Posting Date", "Amount"] =
      [("date", "Posting Date"), ("amount", "Amount"), ("description", "Narrative")] :=
  ⟨resolve_mapping_deterministic.1 _ _ _ (by decide),
   resolve_mapping_deterministic.2.1 _ _ (by decide),
   (resolve_mapping_deterministic.2.2.2.1 _).trans rfl⟩

theorem row_to_tx_none_amount (mapping : List (String × String)) (columns : List String)
    (invert : Bool) (src : String) (row : List Cell) (colName : String) (cell : Cell)
    (h1 : mapping.lookup ("amount") = some colName)
    (h2 : cell_at columns row colName = some cell)
    (h3 : convert_amount cell = none) :
    row_to_tx mapping columns invert src row = none := by
  unfold row_to_tx
  cases hd : mapping.lookup ("date") with
  | none => simp
  | some dateCol =>
    simp only [Option.some_bind]
    cases hdc : cell_at columns row dateCol with
    | none => simp
    | some dateCell =>
      simp only [Option.some_bind]
      rw [h1]
      simp only [Option.some_bind]
      rw [h2]
      simp only [Option.some_bind]
      cases hdl : mapping.lookup ("description") with
      | none => simp
      | some descCol =>
        simp only [Option.some_bind]
        cases hdcl : cell_at columns row descCol with
        | none => simp
        | some descCell =>
          simp only [Option.some_bind]
          rw [h3]
          simp

theorem row_to_tx_none_date (mapping : List (String × String)) (columns : List String)
    (invert : Bool) (src : String) (row : List Cell) (colName : String) (cell : Cell)
    (h1 : mapping.lookup ("date") = some colName)
    (h2 : cell_at columns row colName = some cell)
    (h3 : normalize_date (py_str cell) = none) :
    row_to_tx mapping columns invert src row = none := by
  unfold row_to_tx
  rw [h1]
  simp only [Option.some_bind]
  rw [h2]
  simp only [Option.some_bind]
  cases ha : mapping.lookup ("amount") with
  | none => simp
  | some amountCol =>
    simp only [Option.some_bind]
    cases hac : cell_at columns row amountCol with
    | none => simp
    | some amountCell =>
      simp only [Option.some_bind]
      cases hdl : mapping.lookup ("description") with
      | none => simp
      | some descCol =>
        simp only [Option.some_bind]
        cases hdcl : cell_at columns row descCol with
        | none => simp
        | some descCell =>
          simp only [Option.some_bind]
          cases hamt : convert_amount amountCell with
          | none => simp
          | some amount0 =>
            simp only [Option.some_bind]
            rw [h3]
            simp

/-- C9: once the table is read and the mapping resolves to something
nonempty, `parse` returns normally with the transactions of the surviving
rows (`filterMap`) — no exception escapes the row loop — and a row whose
amount fails numeric conversion (e.g. "N/A") or whose date fails to
normalize produces `none`, i.e. is dropped without aborting the file. -/
theorem parse_drops_bad_rows (self_mapping : List (String × String))
    (kwargs_mapping : Option (List (String × String))) (columns : List String)
    (rows : List (List Cell)) (invert : Bool) (file_path : String)
    (h : resolve_mapping self_mapping kwargs_mapping columns ≠ []) :
    parse self_mapping kwargs_mapping invert file_path ⟨columns, rows⟩ =
      .ok (rows.filterMap (row_to_tx (resolve_mapping self_mapping kwargs_mapping columns)
        columns invert ("csv:" ++ file_path))) ∧
    (∀ row ∈ rows, ∀ (colName : String) (cell : Cell),
      (resolve_mapping self_mapping kwargs_mapping columns).lookup ("amount") = some colName →
      cell_at columns row colName = some cell →
      convert_amount cell = none →
      row_to_tx (resolve_mapping self_mapping kwargs_mapping columns) columns invert
        ("csv:" ++ file_path) row = none) ∧
    (∀ row ∈ rows, ∀ (colName : String) (cell : Cell),
      (resolve_mapping self_mapping kwargs_mapping columns).lookup ("date") = some colName →
      cell_at columns row colName = some cell →
      normalize_date (py_str cell) = none →
      row_to_tx (resolve_mapping self_mapping kwargs_mapping columns) columns invert
        ("csv:" ++ file_path) row = none) := by
  have hne : (resolve_mapping self_mapping kwargs_mapping columns).isEmpty = false := by
    cases hm : resolve_mapping self_mapping kwargs_mapping columns with
    | nil => exact absurd hm h
    | cons p l => rfl
  refine ⟨?_, ?_, ?_⟩
  · simp [parse, hne]
  · intro row hr colName cell h1 h2 h3
    exact row_to_tx_none_amount _ _ _ _ _ _ _ h1 h2 h3
  · intro row hr colName cell h1 h2 h3
    exact row_to_tx_none_date _ _ _ _ _ _ _ h1 h2 h3

/-- Witness for C9: a row whose amount cell is "N/A" is dropped and the
file parse still returns normally (here: empty result). -/
theorem parse_drops_bad_rows_witness :
    row_to_tx (resolve_mapping [] none ["Date", "Amount", "Description"])
      ["Date", "Amount", "Description"] false ("csv:" ++ "stmt.csv")
      [Cell.str ("2024-01-16"), Cell.str ("N/A"), Cell.str ("COFFEE")] = none ∧
    parse [] none false ("stmt.csv")
      ⟨["Date", "Amount", "Description"],
       [[Cell.str ("2024-01-16"), Cell.str ("N/A"), Cell.str ("COFFEE")]]⟩ = .ok [] :=
  ⟨(parse_drops_bad_rows [] none ["Date", "Amount", "Description"]
      [[Cell.str ("2024-01-16"), Cell.str ("N/A"), Cell.str ("COFFEE")]] false ("stmt.csv")
      (by decide)).2.1
    [Cell.str ("2024-01-16"), Cell.str ("N/A"), Cell.str ("COFFEE")] (by simp)
    ("Amount") (Cell.str ("N/A")) rfl rfl rfl,
   ((parse_drops_bad_rows [] none ["Date", "Amount", "Description"]
      [[Cell.str ("2024-01-16"), Cell.str ("N/A"), Cell.str ("COFFEE")]] false ("stmt.csv")
      (by decide)).1).trans rfl⟩

end DotSpend
